import Mathlib

/-!
Verification of the FluxAgent workflow orchestration core.

This file gives a shallow embedding of the state machine in
src/app/graph/workflow.py, the supervisor agent in
src/app/agents/supervisor_agent.py and the research agent in
src/app/agents/research_agent.py, and proves properties of the routing,
fallback and error-handling logic.

Modelling conventions:
* Python dicts holding fixed keys become Lean structures; optional dict
  values become Option.
* Every LLM call and tool call is an external collaborator; its outcome is
  passed in explicitly as an `Except String _` value (`.error m` models the
  call raising an exception with message m, `.ok v` a normal return).
* Role-tagged message dicts (and the langchain AIMessage objects the
  research agent appends) become the record `Msg` with role and content.
* Python string operations `.lower()` and `.strip()` are modelled character
  wise (`pyLower`, `pyStrip`); all inputs of interest are ASCII, where the
  two semantics agree.
-/

namespace FluxAgent

/-- A role-tagged chat message, the entries of the messages list
(dicts with keys "role" and "content" in the source). -/
structure Msg where
  role : String
  content : String
deriving DecidableEq, Repr

/-- One entry of research_data.raw_results: on success the dict
with keys tool, query, result; on failure the dict with keys tool, query,
error (src/app/agents/research_agent.py lines 86-100). -/
inductive RawEntry where
  | ok (tool : String) (query : String) (result : String)
  | err (tool : String) (query : String) (error : String)
deriving DecidableEq, Repr

/-- The research_data dict written by ResearchAgent.research
(src/app/agents/research_agent.py lines 112-116). -/
structure ResearchData where
  query : String
  raw_results : List RawEntry
  synthesis : String
deriving DecidableEq, Repr

/-- The supervisor_decision note written into working_memory
(src/app/agents/supervisor_agent.py lines 98-102). -/
structure WMNote where
  decision : String
  reasoning : String
  user_input : String
deriving DecidableEq, Repr

/-- The AgentState TypedDict of src/app/graph/state.py. Free-form dicts
whose contents the core never inspects (tool_results, long_term_memory,
session_data) are modelled as association lists of strings. -/
structure AgentState where
  messages : List Msg
  user_input : String
  next_action : Option String
  research_data : Option ResearchData
  plan : Option (List String)
  tools_used : List String
  tool_results : List (String × String)
  conversation_id : Option String
  user_id : Option String
  current_agent : String
  workflow_status : String
  working_memory : List (String × WMNote)
  long_term_memory : Option (List (String × String))
  timestamp : Option String
  session_data : List (String × String)
deriving DecidableEq, Repr

/-- Python str.lower, modelled characterwise (ASCII-faithful). -/
def pyLower (s : String) : String :=
  ⟨s.data.map Char.toLower⟩

/-- Python str.strip: drop whitespace from both ends. -/
def pyStrip (s : String) : String :=
  ⟨((s.data.dropWhile Char.isWhitespace).reverse.dropWhile Char.isWhitespace).reverse⟩

/-- The pattern is an initial segment of the text. -/
def matchesAt : List Char → List Char → Bool
  | [], _ => true
  | _ :: _, [] => false
  | p :: ps, c :: cs => p == c && matchesAt ps cs

/-- The pattern occurs as a contiguous run somewhere in the text. -/
def occursIn (p : List Char) : List Char → Bool
  | [] => matchesAt p []
  | c :: cs => matchesAt p (c :: cs) || occursIn p cs

/-- Python substring containment: pat in s. -/
def strContains (s pat : String) : Bool :=
  occursIn pat.data s.data

/-- The fixed keyword list of SupervisorAgent._fallback_decision
(src/app/agents/supervisor_agent.py lines 117-121). -/
def research_keywords : List String :=
  ["search", "find", "research", "latest", "current", "recent",
   "news", "what is", "information", "data", "statistics",
   "compare", "versus", "vs", "trends", "developments"]

/-- SupervisorAgent._fallback_decision: keyword matching on the lowercased
input; any keyword occurring as a substring yields "research", otherwise
"respond" (src/app/agents/supervisor_agent.py lines 114-131). -/
def fallback_decision (user_input : String) : String :=
  let user_lower := pyLower user_input
  if research_keywords.any (fun k => strContains user_lower k) then "research"
  else "respond"

/-- An ASCII single quote, used in the supervisor reasoning note. -/
def squote : String := String.singleton (Char.ofNat 39)

/-- SupervisorAgent.decide_action (src/app/agents/supervisor_agent.py lines
53-112). The outcome of the classification LLM call is passed in: `.ok r`
models the chain returning reply r, `.error m` models any exception inside
the try block (the LLM call raising) with message m. On a reply, the
decision is the stripped lowercased reply if it is one of the two tokens,
otherwise the keyword fallback; on an exception the keyword fallback is
used and workflow_status is set to "error" (and neither current_agent nor
working_memory is touched). -/
def decide_action (state : AgentState) (llm : Except String String) : AgentState :=
  match llm with
  | .ok reply =>
      let decision := pyLower (pyStrip reply)
      let next_action :=
        if decision = "research" ∨ decision = "respond" then decision
        else fallback_decision state.user_input
      { state with
        next_action := some next_action,
        current_agent := "supervisor",
        working_memory :=
          ("supervisor_decision",
            ⟨next_action,
             "Analyzed request: " ++ squote ++ state.user_input ++ squote
               ++ " -> " ++ next_action,
             state.user_input⟩)
          :: state.working_memory.filter (fun kv => kv.1 ≠ "supervisor_decision") }
  | .error _ =>
      { state with
        next_action := some (fallback_decision state.user_input),
        workflow_status := "error" }

/-- The three ways the supervisor step can go, seen from the graph node
AgentWorkflow._supervisor_node: the decide_action LLM call returns a reply,
it raises inside decide_action (handled by decide_action itself), or an
exception escapes decide_action and is caught at the node boundary. -/
inductive SupEvent where
  | reply (r : String)
  | fail (m : String)
  | escape (m : String)
deriving DecidableEq, Repr

/-- AgentWorkflow._supervisor_node (src/app/graph/workflow.py lines 63-75):
delegates to decide_action; an exception escaping decide_action is caught,
workflow_status is set to "error" and a "Supervisor error: ..." assistant
message is appended (next_action is left as it was). -/
def supervisor_node (state : AgentState) : SupEvent → AgentState
  | .reply r => decide_action state (.ok r)
  | .fail m => decide_action state (.error m)
  | .escape m =>
      { state with
        workflow_status := "error",
        messages := state.messages ++ [⟨"assistant", "Supervisor error: " ++ m⟩] }

/-- AgentWorkflow._route_supervisor (src/app/graph/workflow.py lines
135-144). The source reads state.get("next_action", "respond"); the key is
always present in states built by process_message, so the default is dead
and a stored None compares unequal to both tokens. Routing looks only at
next_action; workflow_status is not consulted. -/
def route_supervisor (state : AgentState) : String :=
  if state.next_action = some "research" then "research"
  else if state.next_action = some "respond" then "respond"
  else "end"

/-- AgentWorkflow._route_after_research (src/app/graph/workflow.py lines
146-150). -/
def route_after_research (state : AgentState) : String :=
  if state.workflow_status = "error" then "end" else "respond"

/-- One tool invocation requested by the model (name plus a rendering of
the argument dict the model supplied). -/
structure ToolCall where
  name : String
  args : String
deriving DecidableEq, Repr

/-- The external outcomes of one execution of ResearchAgent.research:
the tool-augmented model call (which returns the list of requested tool
calls, or raises), the outcome of each attempted tool execution (indexed
by position in the tool_calls list), and the synthesis LLM call. -/
structure ResearchRun where
  model_response : Except String (List ToolCall)
  tool_run : Nat → Except String String
  synthesis_response : Except String String

/-- The raw_results entry recorded for an executed tool call, by outcome
(src/app/agents/research_agent.py lines 86-100). -/
def mk_entry (c : ToolCall) : Except String String → RawEntry
  | .ok r => RawEntry.ok c.name c.args r
  | .error e => RawEntry.err c.name c.args e

/-- The tool-call loop of ResearchAgent.research (lines 77-101): each
requested call whose name matches an available tool is executed (first
match, then break); a success records a result entry, a failure records an
error entry and the loop continues; an unknown tool name records nothing. -/
def run_tool_calls (tools : List String) (tool_run : Nat → Except String String) :
    Nat → List ToolCall → List RawEntry
  | _, [] => []
  | i, c :: cs =>
      if c.name ∈ tools then
        mk_entry c (tool_run i) :: run_tool_calls tools tool_run (i + 1) cs
      else
        run_tool_calls tools tool_run (i + 1) cs

/-- The tool name stored in a raw_results entry (result.get("tool", "")). -/
def entry_tool : RawEntry → String
  | .ok t _ _ => t
  | .err t _ _ => t

/-- The except branch of ResearchAgent.research (lines 124-131): append a
"Research failed: ..." assistant message and set workflow_status to
"error"; research_data is not touched. -/
def research_error (state : AgentState) (e : String) : AgentState :=
  { state with
    messages := state.messages ++ [⟨"assistant", "Research failed: " ++ e⟩],
    workflow_status := "error" }

/-- ResearchAgent.research (src/app/agents/research_agent.py lines 51-131).
The try block covers the whole body, so an exception from the model call or
from the synthesis call lands in research_error; tool exceptions are caught
inside the loop. On success research_data is written in one assignment,
the synthesis is appended as an assistant message, tools_used is extended
with the tool name of every recorded entry (failed ones included), and
current_agent becomes "research". -/
def research (tools : List String) (state : AgentState) (run : ResearchRun) : AgentState :=
  match run.model_response with
  | .error e => research_error state e
  | .ok calls =>
      let research_results := run_tool_calls tools run.tool_run 0 calls
      match run.synthesis_response with
      | .error e => research_error state e
      | .ok syn =>
          { state with
            research_data := some ⟨state.user_input, research_results, syn⟩,
            messages := state.messages ++ [⟨"assistant", syn⟩],
            tools_used := state.tools_used ++ research_results.map entry_tool,
            current_agent := "research" }

/-- How the research step goes, seen from AgentWorkflow._research_node:
either research runs (with the given external outcomes), or an exception
escapes research itself and is caught at the node boundary. The research
body catches all its own exceptions, so the escape case is defensive dead
code in the source, modelled for completeness. -/
inductive ResEvent where
  | run (r : ResearchRun)
  | escape (m : String)

/-- AgentWorkflow._research_node (src/app/graph/workflow.py lines 77-89). -/
def research_node (tools : List String) (state : AgentState) : ResEvent → AgentState
  | .run r => research tools state r
  | .escape m =>
      { state with
        workflow_status := "error",
        messages := state.messages ++ [⟨"assistant", "Research error: " ++ m⟩] }

/-- AgentWorkflow._respond_node (src/app/graph/workflow.py lines 91-133).
The direct LLM call is modelled as a function of the user content it is
invoked with (the raw user_input). If research_data is truthy its
synthesis, when non-empty, is appended verbatim and no LLM call happens
(an empty synthesis appends nothing); otherwise one direct LLM call is
made and its reply appended, and an exception from it lands in the except
branch. Both non-exception paths set workflow_status = "completed" and
current_agent = "respond". -/
def respond_node (state : AgentState) (llm : String → Except String String) : AgentState :=
  match state.research_data with
  | some rd =>
      let st :=
        if rd.synthesis ≠ "" then
          { state with messages := state.messages ++ [⟨"assistant", rd.synthesis⟩] }
        else state
      { st with workflow_status := "completed", current_agent := "respond" }
  | none =>
      match llm state.user_input with
      | .ok reply =>
          { state with
            messages := state.messages ++ [⟨"assistant", reply⟩],
            workflow_status := "completed",
            current_agent := "respond" }
      | .error e =>
          { state with
            messages := state.messages ++ [⟨"assistant", "Response generation error: " ++ e⟩],
            workflow_status := "error" }

/-- The graph states of the compiled workflow: the three named nodes and
the terminal END. -/
inductive Node where
  | supervisor
  | research
  | respond
  | END
deriving DecidableEq, Repr

/-- The external outcomes of one full graph run: one event per node. -/
structure Env where
  sup : SupEvent
  res : ResEvent
  resp : String → Except String String

/-- One transition of the compiled graph of AgentWorkflow._build_graph
(src/app/graph/workflow.py lines 24-61): supervisor routes through
_route_supervisor with edge map research/respond/end, research routes
through _route_after_research with edge map respond/end, respond has an
unconditional edge to END, and END is absorbing. -/
def step (tools : List String) (env : Env) : Node × AgentState → Node × AgentState
  | (.supervisor, s) =>
      let s2 := supervisor_node s env.sup
      (if route_supervisor s2 = "research" then .research
       else if route_supervisor s2 = "respond" then .respond
       else .END, s2)
  | (.research, s) =>
      let s2 := research_node tools s env.res
      (if route_after_research s2 = "respond" then .respond else .END, s2)
  | (.respond, s) => (.END, respond_node s env.resp)
  | (.END, s) => (.END, s)

/-- Iterate the graph transition n times. -/
def stepN (tools : List String) (env : Env) : Nat → Node × AgentState → Node × AgentState
  | 0, p => p
  | n + 1, p => stepN tools env n (step tools env p)

/-- The list of nodes activated within the given fuel, starting from the
given configuration and stopping at END. -/
def run_trace (tools : List String) (env : Env) : Nat → Node × AgentState → List Node
  | 0, _ => []
  | n + 1, (nd, s) =>
      match nd with
      | .END => []
      | _ => nd :: run_trace tools env n (step tools env (nd, s))

/-- The nodes activated by one graph run from the entry point. Three steps
suffice: the termination theorem below shows END is reached by then. -/
def graph_trace (tools : List String) (env : Env) (s : AgentState) : List Node :=
  run_trace tools env 3 (.supervisor, s)

/-- The record returned by AgentWorkflow.process_message: exactly the five
fields of the dict built at src/app/graph/workflow.py lines 189-205. -/
structure ProcResult where
  response : String
  status : String
  tools_used : List String
  research_data : Option ResearchData
  conversation_id : String
deriving DecidableEq, Repr

/-- The initial AgentState built by process_message
(src/app/graph/workflow.py lines 156-172). -/
def initial_state (user_input conversation_id user_id : String) : AgentState :=
  { messages := [⟨"user", user_input⟩],
    user_input := user_input,
    next_action := none,
    research_data := none,
    plan := none,
    tools_used := [],
    tool_results := [],
    conversation_id := some conversation_id,
    user_id := some user_id,
    current_agent := "supervisor",
    workflow_status := "in_progress",
    working_memory := [],
    long_term_memory := none,
    timestamp := none,
    session_data := [] }

/-- AgentWorkflow.process_message (src/app/graph/workflow.py lines
152-205). graph_fail models an exception escaping the graph run itself
(the outer try); when none, the graph is run to completion (three steps
reach the absorbing END, by the termination theorem) and the final state
is summarised: the content of the last message (messages is never empty,
but the source default "No response generated" is modelled), the final
workflow_status, tools_used and research_data, plus the conversation id. -/
def process_message (tools : List String) (user_input conversation_id user_id : String)
    (graph_fail : Option String) (env : Env) : ProcResult :=
  match graph_fail with
  | some m => ⟨"Workflow error: " ++ m, "error", [], none, conversation_id⟩
  | none =>
      let fin := (stepN tools env 3 (.supervisor, initial_state user_input conversation_id user_id)).2
      let response :=
        match fin.messages.getLast? with
        | some m => m.content
        | none => "No response generated"
      ⟨response, fin.workflow_status, fin.tools_used, fin.research_data, conversation_id⟩

/-- The raw_results of a state, empty when research_data is unset. -/
def raw_results_of (s : AgentState) : List RawEntry :=
  match s.research_data with
  | some rd => rd.raw_results
  | none => []

/-- Sample environment: a clean supervisor reply and a direct LLM that
answers every prompt. -/
def sample_env : Env :=
  { sup := SupEvent.reply "respond",
    res := ResEvent.escape "unused",
    resp := fun _ => Except.ok "direct reply" }

/-- Environment in which an exception escapes decide_action and is caught
at the supervisor node boundary. -/
def escape_env : Env :=
  { sup := SupEvent.escape "kaboom",
    res := ResEvent.escape "unused",
    resp := fun _ => Except.ok "direct reply" }

/-- A state whose research_data is present but carries an empty synthesis
(the research agent writes synthesis_response.content verbatim, which can
be the empty string). -/
def empty_syn_state : AgentState :=
  { initial_state "Hello" "c" "u" with research_data := some ⟨"Hello", [], ""⟩ }

/-- A direct-response LLM stub that echoes its prompt. -/
def echo_llm : String → Except String String :=
  fun q => Except.ok ("LLM reply to " ++ q)

/-- A research run whose two tool calls both succeed and whose synthesis
call then raises. -/
def syn_fail_run : ResearchRun :=
  { model_response := Except.ok [⟨"web_search", "q1"⟩, ⟨"web_search", "q2"⟩],
    tool_run := fun _ => Except.ok "a result",
    synthesis_response := Except.error "synthesis boom" }

/-- A research run requesting two tool calls of which the first raises and
the second succeeds, with a successful synthesis. -/
def one_fail_run : ResearchRun :=
  { model_response := Except.ok [⟨"web_search", "q1"⟩, ⟨"tavily_search", "q2"⟩],
    tool_run := fun i => if i = 0 then Except.error "boom" else Except.ok "found it",
    synthesis_response := Except.ok "SYN" }

/-
Helper lemmas, shared by the claim theorems below.
-/

theorem fallback_decision_mem (ui : String) :
    fallback_decision ui = "research" ∨ fallback_decision ui = "respond" := by
  unfold fallback_decision
  dsimp only
  split
  · exact Or.inl rfl
  · exact Or.inr rfl

theorem decide_action_next_mem (s : AgentState) (llm : Except String String) :
    (decide_action s llm).next_action = some "research" ∨
    (decide_action s llm).next_action = some "respond" := by
  cases llm with
  | error m =>
      rcases fallback_decision_mem s.user_input with h | h
      · exact Or.inl (by simp [decide_action, h])
      · exact Or.inr (by simp [decide_action, h])
  | ok reply =>
      by_cases hd : pyLower (pyStrip reply) = "research" ∨ pyLower (pyStrip reply) = "respond"
      · rcases hd with h | h
        · exact Or.inl (by simp [decide_action, h])
        · exact Or.inr (by simp [decide_action, h])
      · rcases fallback_decision_mem s.user_input with h | h
        · exact Or.inl (by simp [decide_action, hd, h])
        · exact Or.inr (by simp [decide_action, hd, h])

theorem decide_action_research_data (s : AgentState) (llm : Except String String) :
    (decide_action s llm).research_data = s.research_data := by
  cases llm <;> rfl

theorem route_supervisor_cases (s : AgentState) :
    route_supervisor s = "research" ∨ route_supervisor s = "respond" ∨
    route_supervisor s = "end" := by
  unfold route_supervisor
  split
  · exact Or.inl rfl
  · split
    · exact Or.inr (Or.inl rfl)
    · exact Or.inr (Or.inr rfl)

theorem route_after_research_cases (s : AgentState) :
    route_after_research s = "respond" ∨ route_after_research s = "end" := by
  unfold route_after_research
  split
  · exact Or.inr rfl
  · exact Or.inl rfl

theorem research_node_status (tools : List String) (s : AgentState) (ev : ResEvent) :
    (research_node tools s ev).workflow_status = s.workflow_status ∨
    (research_node tools s ev).workflow_status = "error" := by
  cases ev with
  | escape m => exact Or.inr rfl
  | run r =>
      rcases r with ⟨mr, tr, sr⟩
      cases mr with
      | error e => exact Or.inr rfl
      | ok calls =>
          cases sr with
          | error e => exact Or.inr rfl
          | ok syn => exact Or.inl rfl

theorem respond_node_status (s : AgentState) (llm : String → Except String String) :
    (respond_node s llm).workflow_status = "completed" ∨
    (respond_node s llm).workflow_status = "error" := by
  unfold respond_node
  rcases hrd : s.research_data with _ | rd
  · rcases hl : llm s.user_input with e | rep
    · exact Or.inr rfl
    · exact Or.inl rfl
  · exact Or.inl rfl

theorem stepN_three (tools : List String) (env : Env) (p : Node × AgentState) :
    stepN tools env 3 p = step tools env (step tools env (step tools env p)) := rfl

theorem step_super_research (tools : List String) (env : Env) (s : AgentState)
    (h : route_supervisor (supervisor_node s env.sup) = "research") :
    step tools env (Node.supervisor, s) = (Node.research, supervisor_node s env.sup) := by
  simp +decide [step, h]

theorem step_super_respond (tools : List String) (env : Env) (s : AgentState)
    (h : route_supervisor (supervisor_node s env.sup) = "respond") :
    step tools env (Node.supervisor, s) = (Node.respond, supervisor_node s env.sup) := by
  simp +decide [step, h]

theorem step_super_end (tools : List String) (env : Env) (s : AgentState)
    (h : route_supervisor (supervisor_node s env.sup) = "end") :
    step tools env (Node.supervisor, s) = (Node.END, supervisor_node s env.sup) := by
  simp +decide [step, h]

theorem step_research_respond (tools : List String) (env : Env) (s : AgentState)
    (h : route_after_research (research_node tools s env.res) = "respond") :
    step tools env (Node.research, s) = (Node.respond, research_node tools s env.res) := by
  simp +decide [step, h]

theorem step_research_end (tools : List String) (env : Env) (s : AgentState)
    (h : route_after_research (research_node tools s env.res) = "end") :
    step tools env (Node.research, s) = (Node.END, research_node tools s env.res) := by
  simp +decide [step, h]

theorem step_respond (tools : List String) (env : Env) (s : AgentState) :
    step tools env (Node.respond, s) = (Node.END, respond_node s env.resp) := rfl

theorem step_end (tools : List String) (env : Env) (s : AgentState) :
    step tools env (Node.END, s) = (Node.END, s) := rfl

theorem matchesAt_map (f : Char → Char) :
    ∀ p s : List Char, matchesAt p s = true → matchesAt (p.map f) (s.map f) = true := by
  intro p
  induction p with
  | nil => intro s _; rfl
  | cons a ps ih =>
      intro s h
      cases s with
      | nil => simp [matchesAt] at h
      | cons b bs =>
          simp only [matchesAt, Bool.and_eq_true, beq_iff_eq] at h
          obtain ⟨hab, hm⟩ := h
          simp only [List.map_cons, matchesAt, Bool.and_eq_true, beq_iff_eq]
          exact ⟨by rw [hab], ih bs hm⟩

theorem occursIn_map (f : Char → Char) (p : List Char) :
    ∀ s : List Char, occursIn p s = true → occursIn (p.map f) (s.map f) = true := by
  intro s
  induction s with
  | nil =>
      intro h
      cases p with
      | nil => rfl
      | cons a ps => simp [occursIn, matchesAt] at h
  | cons c cs ih =>
      intro h
      simp only [occursIn, Bool.or_eq_true] at h
      simp only [List.map_cons, occursIn, Bool.or_eq_true]
      rcases h with h | h
      · exact Or.inl (by simpa using matchesAt_map f p (c :: cs) h)
      · exact Or.inr (ih h)

/-
Claim theorems.
-/

/-- C1 counterexample: a state actually returned by the supervisor node
with workflow_status "error" for which the graph routes to "research"
rather than "end". The LLM call inside decide_action raises; the except
branch sets workflow_status to "error" but also sets next_action through
the keyword fallback, and _route_supervisor consults only next_action, so
the run proceeds into the research node. -/
theorem supervisor_error_routes_research_cex :
    (supervisor_node (initial_state "latest news" "c" "u") (SupEvent.fail "llm down")).workflow_status
        = "error" ∧
    route_supervisor (supervisor_node (initial_state "latest news" "c" "u") (SupEvent.fail "llm down"))
        = "research" := by
  decide

/-- C1 (amended): the supervisor router decides on next_action alone and
never consults workflow_status: it yields "end" exactly when next_action is
neither "research" nor "respond". The node-boundary failure path leaves
next_action unchanged, so from the initial state (next_action = None) it
routes to end; the decide_action-internal failure path sets
workflow_status to "error" yet still proceeds to research or respond,
because the fallback always sets next_action to one of the two tokens. -/
theorem route_supervisor_amended :
    (∀ s : AgentState, route_supervisor s = "end" ↔
       s.next_action ≠ some "research" ∧ s.next_action ≠ some "respond") ∧
    (∀ (s : AgentState) (m : String),
       (supervisor_node s (SupEvent.escape m)).next_action = s.next_action) ∧
    (∀ ui cid uid m : String,
       route_supervisor (supervisor_node (initial_state ui cid uid) (SupEvent.escape m)) = "end") ∧
    (∀ (s : AgentState) (m : String),
       (supervisor_node s (SupEvent.fail m)).workflow_status = "error" ∧
       route_supervisor (supervisor_node s (SupEvent.fail m)) ≠ "end") := by
  refine ⟨?_, ?_, ?_, ?_⟩
  · intro s
    unfold route_supervisor
    split
    · rename_i h
      simp +decide [h]
    · split
      · rename_i h
        simp +decide [h]
      · rename_i h1 h2
        simp +decide [h1, h2]
  · intro s m
    rfl
  · intro ui cid uid m
    rfl
  · intro s m
    refine ⟨rfl, ?_⟩
    rcases fallback_decision_mem s.user_input with h | h <;>
      simp +decide [route_supervisor, supervisor_node, decide_action, h]

/-- C1 witness: the amended routing rule evaluated at the initial state,
whose next_action is None, yields "end". -/
theorem route_supervisor_amended_witness :
    route_supervisor (initial_state "hi" "c" "u") = "end" :=
  (route_supervisor_amended.1 (initial_state "hi" "c" "u")).mpr (by decide)

/-- C2 counterexample: an input state with research_data present but an
empty synthesis. The claim requires case (b) here (one direct LLM call and
an appended reply), but the respond node appends nothing at all — its
message list is unchanged — while still setting workflow_status to
"completed". -/
theorem respond_empty_synthesis_cex :
    (respond_node empty_syn_state echo_llm).messages = empty_syn_state.messages ∧
    empty_syn_state.messages.length = 1 ∧
    (respond_node empty_syn_state echo_llm).workflow_status = "completed" := by
  decide

/-- C2 (amended): when research_data carries a non-empty synthesis the
respond node appends it verbatim with no LLM call (the output does not
depend on the LLM at all whenever research_data is present); when
research_data is absent it issues one direct LLM call on the raw
user_input and appends the reply; both of those set workflow_status to
"completed". The remaining case — research_data present with an empty
synthesis — appends nothing and makes no LLM call, also ending
"completed". -/
theorem respond_node_amended (s : AgentState) (llm : String → Except String String) :
    (∀ rd : ResearchData, s.research_data = some rd → rd.synthesis ≠ "" →
       (respond_node s llm).messages = s.messages ++ [⟨"assistant", rd.synthesis⟩] ∧
       (respond_node s llm).workflow_status = "completed") ∧
    (∀ rd : ResearchData, s.research_data = some rd → rd.synthesis = "" →
       (respond_node s llm).messages = s.messages ∧
       (respond_node s llm).workflow_status = "completed") ∧
    (∀ llm2 : String → Except String String,
       s.research_data ≠ none → respond_node s llm = respond_node s llm2) ∧
    (∀ r : String, s.research_data = none → llm s.user_input = Except.ok r →
       (respond_node s llm).messages = s.messages ++ [⟨"assistant", r⟩] ∧
       (respond_node s llm).workflow_status = "completed") := by
  refine ⟨?_, ?_, ?_, ?_⟩
  · intro rd hrd hsyn
    unfold respond_node
    rw [hrd]
    dsimp only
    rw [if_pos hsyn]
    exact ⟨rfl, rfl⟩
  · intro rd hrd hsyn
    unfold respond_node
    rw [hrd]
    dsimp only
    rw [if_neg (by simp [hsyn])]
    exact ⟨rfl, rfl⟩
  · intro llm2 h
    unfold respond_node
    rcases hrd : s.research_data with _ | rd
    · exact absurd hrd h
    · rfl
  · intro r hrd hl
    unfold respond_node
    rw [hrd]
    dsimp only
    rw [hl]
    exact ⟨rfl, rfl⟩

/-- C2 witness: the amended theorem applied to a state carrying a
non-empty synthesis appends it verbatim and completes. -/
theorem respond_node_amended_witness :
    (respond_node { initial_state "q" "c" "u" with research_data := some ⟨"q", [], "SYN"⟩ } echo_llm).messages
        = (initial_state "q" "c" "u").messages ++ [⟨"assistant", "SYN"⟩] ∧
    (respond_node { initial_state "q" "c" "u" with research_data := some ⟨"q", [], "SYN"⟩ } echo_llm).workflow_status
        = "completed" :=
  (respond_node_amended { initial_state "q" "c" "u" with research_data := some ⟨"q", [], "SYN"⟩ }
    echo_llm).1 ⟨"q", [], "SYN"⟩ rfl (by decide)

/-- C3: decide_action is total over classification: for any state and any
LLM outcome — a reply equal to neither token (after stripping and
lowercasing) or an exception — the returned next_action is "research" or
"respond". -/
theorem decide_action_total (s : AgentState) (llm : Except String String) :
    (decide_action s llm).next_action = some "research" ∨
    (decide_action s llm).next_action = some "respond" :=
  decide_action_next_mem s llm

/-- C8: the fallback classification is deterministic keyword matching of
the fixed research_keywords list against the lowercased input: it returns
"research" exactly when some keyword occurs in the lowercased input and
"respond" exactly when none does; any input containing "latest" yields
"research", and "Tell me a joke" yields "respond". -/
theorem fallback_keyword_spec :
    (∀ ui : String,
       (fallback_decision ui = "research" ↔
         (research_keywords.any fun k => strContains (pyLower ui) k) = true) ∧
       (fallback_decision ui = "respond" ↔
         (research_keywords.any fun k => strContains (pyLower ui) k) = false)) ∧
    (∀ ui : String, strContains ui "latest" = true → fallback_decision ui = "research") ∧
    fallback_decision "Tell me a joke" = "respond" := by
  refine ⟨?_, ?_, by decide⟩
  · intro ui
    unfold fallback_decision
    dsimp only
    by_cases hA : (research_keywords.any fun k => strContains (pyLower ui) k) = true
    · rw [if_pos hA]
      constructor
      · simp [hA]
      · simp +decide [hA]
    · have hA2 : (research_keywords.any fun k => strContains (pyLower ui) k) = false := by
        simpa using hA
      rw [if_neg hA]
      constructor
      · simp +decide [hA2]
      · simp [hA2]
  · intro ui h
    have hocc : occursIn ("latest".data.map Char.toLower) (ui.data.map Char.toLower) = true :=
      occursIn_map Char.toLower "latest".data ui.data h
    have hlat : "latest".data.map Char.toLower = "latest".data := by decide
    rw [hlat] at hocc
    have hc : strContains (pyLower ui) "latest" = true := hocc
    unfold fallback_decision
    dsimp only
    rw [if_pos ?side]
    case side =>
      exact List.any_eq_true.mpr ⟨"latest", by decide, hc⟩

/-- C8 witness: an input containing "latest" classified by the fallback. -/
theorem fallback_keyword_spec_witness :
    strContains "the latest score" "latest" = true ∧
    fallback_decision "the latest score" = "research" :=
  ⟨by decide, fallback_keyword_spec.2.1 "the latest score" (by decide)⟩

/-- C4: for every initial state and every outcome of the external calls,
after three transitions the graph sits in the terminal END state, and the
activated nodes form one of the four prefixes of
supervisor → [research] → respond allowed by the transition table (so at
most 3 activations, in that deterministic order). -/
theorem graph_termination (tools : List String) (env : Env) (s : AgentState) :
    (stepN tools env 3 (Node.supervisor, s)).1 = Node.END ∧
    (graph_trace tools env s).length ≤ 3 ∧
    (graph_trace tools env s = [Node.supervisor] ∨
     graph_trace tools env s = [Node.supervisor, Node.respond] ∨
     graph_trace tools env s = [Node.supervisor, Node.research] ∨
     graph_trace tools env s = [Node.supervisor, Node.research, Node.respond]) := by
  have e1 : graph_trace tools env s =
      Node.supervisor :: run_trace tools env 2 (step tools env (Node.supervisor, s)) := rfl
  rcases route_supervisor_cases (supervisor_node s env.sup) with h1 | h1 | h1
  · rcases route_after_research_cases
        (research_node tools (supervisor_node s env.sup) env.res) with h2 | h2
    · have ht : graph_trace tools env s = [Node.supervisor, Node.research, Node.respond] := by
        rw [e1, step_super_research tools env s h1]
        have e2 : run_trace tools env 2 (Node.research, supervisor_node s env.sup) =
            Node.research ::
              run_trace tools env 1 (step tools env (Node.research, supervisor_node s env.sup)) := rfl
        rw [e2, step_research_respond tools env _ h2]
        rfl
      refine ⟨?_, by rw [ht]; decide, Or.inr (Or.inr (Or.inr ht))⟩
      rw [stepN_three, step_super_research tools env s h1,
        step_research_respond tools env _ h2, step_respond]
    · have ht : graph_trace tools env s = [Node.supervisor, Node.research] := by
        rw [e1, step_super_research tools env s h1]
        have e2 : run_trace tools env 2 (Node.research, supervisor_node s env.sup) =
            Node.research ::
              run_trace tools env 1 (step tools env (Node.research, supervisor_node s env.sup)) := rfl
        rw [e2, step_research_end tools env _ h2]
        rfl
      refine ⟨?_, by rw [ht]; decide, Or.inr (Or.inr (Or.inl ht))⟩
      rw [stepN_three, step_super_research tools env s h1,
        step_research_end tools env _ h2, step_end]
  · have ht : graph_trace tools env s = [Node.supervisor, Node.respond] := by
      rw [e1, step_super_respond tools env s h1]
      rfl
    refine ⟨?_, by rw [ht]; decide, Or.inr (Or.inl ht)⟩
    rw [stepN_three, step_super_respond tools env s h1, step_respond, step_end]
  · have ht : graph_trace tools env s = [Node.supervisor] := by
      rw [e1, step_super_end tools env s h1]
      rfl
    refine ⟨?_, by rw [ht]; decide, Or.inl ht⟩
    rw [stepN_three, step_super_end tools env s h1, step_end, step_end]

/-- C9: the supervisor, research and respond steps preserve the reserved
extension fields session_data, long_term_memory and plan on every path
(clean reply, internal LLM failure, node-boundary escape, tool failures,
synthesis failure, empty or present research_data, direct-LLM failure). -/
theorem frame_fields (tools : List String) (s : AgentState) (supEv : SupEvent) (resEv : ResEvent)
    (llm : String → Except String String) :
    ((supervisor_node s supEv).session_data = s.session_data ∧
     (supervisor_node s supEv).long_term_memory = s.long_term_memory ∧
     (supervisor_node s supEv).plan = s.plan) ∧
    ((research_node tools s resEv).session_data = s.session_data ∧
     (research_node tools s resEv).long_term_memory = s.long_term_memory ∧
     (research_node tools s resEv).plan = s.plan) ∧
    ((respond_node s llm).session_data = s.session_data ∧
     (respond_node s llm).long_term_memory = s.long_term_memory ∧
     (respond_node s llm).plan = s.plan) := by
  refine ⟨?_, ?_, ?_⟩
  · cases supEv <;> exact ⟨rfl, rfl, rfl⟩
  · cases resEv with
    | escape m => exact ⟨rfl, rfl, rfl⟩
    | run r =>
        rcases r with ⟨mr, tr, sr⟩
        cases mr with
        | error e => exact ⟨rfl, rfl, rfl⟩
        | ok calls => cases sr <;> exact ⟨rfl, rfl, rfl⟩
  · unfold respond_node
    rcases hrd : s.research_data with _ | rd
    · rcases hl : llm s.user_input with e | rep
      · exact ⟨rfl, rfl, rfl⟩
      · exact ⟨rfl, rfl, rfl⟩
    · dsimp only
      by_cases hsyn : rd.synthesis ≠ ""
      · rw [if_pos hsyn]
        exact ⟨rfl, rfl, rfl⟩
      · rw [if_neg hsyn]
        exact ⟨rfl, rfl, rfl⟩

/-- C6: if the research step fails — the tool-augmented model call raises,
or the synthesis call raises after any number of tool calls — the returned
state has workflow_status "error", an appended assistant message
"Research failed: <message>", and research_data exactly as in the input
state (never partially populated). -/
theorem research_failure_semantics (tools : List String) (s : AgentState) (run : ResearchRun)
    (e : String)
    (h : run.model_response = Except.error e ∨
         ∃ calls, run.model_response = Except.ok calls ∧
           run.synthesis_response = Except.error e) :
    (research tools s run).workflow_status = "error" ∧
    (research tools s run).messages = s.messages ++ [⟨"assistant", "Research failed: " ++ e⟩] ∧
    (research tools s run).research_data = s.research_data := by
  rcases h with h | ⟨calls, hc, hs⟩
  · unfold research
    rw [h]
    exact ⟨rfl, rfl, rfl⟩
  · unfold research
    rw [hc]
    dsimp only
    rw [hs]
    exact ⟨rfl, rfl, rfl⟩

/-- C6 witness: a run in which both requested tool calls succeed and the
synthesis call then raises; research_data is still exactly the input value
(unset) and the error message is appended. -/
theorem research_failure_semantics_witness :
    (research ["web_search"] (initial_state "latest news" "c" "u") syn_fail_run).workflow_status
        = "error" ∧
    (research ["web_search"] (initial_state "latest news" "c" "u") syn_fail_run).messages =
      (initial_state "latest news" "c" "u").messages ++
        [⟨"assistant", "Research failed: synthesis boom"⟩] ∧
    (research ["web_search"] (initial_state "latest news" "c" "u") syn_fail_run).research_data =
      (initial_state "latest news" "c" "u").research_data :=
  research_failure_semantics ["web_search"] (initial_state "latest news" "c" "u") syn_fail_run
    "synthesis boom" (Or.inr ⟨[⟨"web_search", "q1"⟩, ⟨"web_search", "q2"⟩], rfl, rfl⟩)

theorem run_tool_calls_mem (tools : List String) (tool_run : Nat → Except String String) :
    ∀ (calls : List ToolCall) (i j : Nat) (h : j < calls.length),
      (calls.get ⟨j, h⟩).name ∈ tools →
      mk_entry (calls.get ⟨j, h⟩) (tool_run (i + j)) ∈ run_tool_calls tools tool_run i calls := by
  intro calls
  induction calls with
  | nil => intro i j h; exact absurd h (Nat.not_lt_zero j)
  | cons c cs ih =>
      intro i j h hmem
      cases j with
      | zero =>
          have hm : c.name ∈ tools := hmem
          unfold run_tool_calls
          rw [if_pos hm, Nat.add_zero]
          exact List.mem_cons_self _ _
      | succ j =>
          have h2 : j < cs.length := Nat.lt_of_succ_lt_succ h
          have hm2 : (cs.get ⟨j, h2⟩).name ∈ tools := hmem
          have hrec := ih (i + 1) j h2 hm2
          unfold run_tool_calls
          have harith : i + (j + 1) = (i + 1) + j := by omega
          rw [harith]
          split
          · exact List.mem_cons_of_mem _ hrec
          · exact hrec

/-- C7: a failing tool call does not abort the turn: whenever the model
call and synthesis call succeed, every requested tool call whose name
matches an available tool has an entry in raw_results — an error entry
{tool, query, error} if its execution raised, a result entry
{tool, query, result} otherwise — and the run, entering with status
"in_progress", proceeds from the research node to respond. -/
theorem tool_failure_isolation (tools : List String) (s : AgentState) (run : ResearchRun)
    (calls : List ToolCall) (syn : String)
    (hm : run.model_response = Except.ok calls)
    (hs : run.synthesis_response = Except.ok syn)
    (hw : s.workflow_status = "in_progress") :
    (∀ (j : Nat) (h : j < calls.length), (calls.get ⟨j, h⟩).name ∈ tools →
       mk_entry (calls.get ⟨j, h⟩) (run.tool_run j) ∈ raw_results_of (research tools s run)) ∧
    route_after_research (research tools s run) = "respond" := by
  have hres : research tools s run =
      { s with
        research_data :=
          some ⟨s.user_input, run_tool_calls tools run.tool_run 0 calls, syn⟩,
        messages := s.messages ++ [⟨"assistant", syn⟩],
        tools_used := s.tools_used ++ (run_tool_calls tools run.tool_run 0 calls).map entry_tool,
        current_agent := "research" } := by
    unfold research
    rw [hm]
    dsimp only
    rw [hs]
  constructor
  · intro j h hmem
    rw [hres]
    have hrec := run_tool_calls_mem tools run.tool_run calls 0 j h hmem
    simpa [raw_results_of] using hrec
  · rw [hres]
    unfold route_after_research
    simp +decide [hw]

/-- C7 witness: two requested tool calls, the first raising and the second
succeeding; both get their raw_results entry and the graph proceeds to the
respond node. -/
theorem tool_failure_isolation_witness :
    RawEntry.err "web_search" "q1" "boom" ∈
      raw_results_of
        (research ["web_search", "tavily_search"] (initial_state "latest" "c" "u") one_fail_run) ∧
    RawEntry.ok "tavily_search" "q2" "found it" ∈
      raw_results_of
        (research ["web_search", "tavily_search"] (initial_state "latest" "c" "u") one_fail_run) ∧
    route_after_research
        (research ["web_search", "tavily_search"] (initial_state "latest" "c" "u") one_fail_run)
      = "respond" := by
  have h := tool_failure_isolation ["web_search", "tavily_search"]
    (initial_state "latest" "c" "u") one_fail_run
    [⟨"web_search", "q1"⟩, ⟨"tavily_search", "q2"⟩] "SYN" rfl rfl rfl
  refine ⟨?_, ?_, h.2⟩
  · have h0 := h.1 0 (by decide) (by decide)
    simpa [one_fail_run, mk_entry] using h0
  · have h1 := h.1 1 (by decide) (by decide)
    simpa [one_fail_run, mk_entry] using h1

/-- C10: when an exception escapes decide_action and is caught at the
supervisor node boundary, next_action stays None, the router sends the
graph directly to end, and process_message returns the appended
"Supervisor error: <message>" text with status "error". -/
theorem supervisor_escape_contract (tools : List String) (ui cid uid m : String) (env : Env)
    (hsup : env.sup = SupEvent.escape m) :
    (supervisor_node (initial_state ui cid uid) env.sup).next_action = none ∧
    route_supervisor (supervisor_node (initial_state ui cid uid) env.sup) = "end" ∧
    process_message tools ui cid uid none env =
      ⟨"Supervisor error: " ++ m, "error", [], none, cid⟩ := by
  have h1 : route_supervisor (supervisor_node (initial_state ui cid uid) env.sup) = "end" := by
    rw [hsup]
    rfl
  refine ⟨by rw [hsup]; rfl, h1, ?_⟩
  show process_message tools ui cid uid none env = _
  unfold process_message
  dsimp only
  rw [stepN_three, step_super_end tools env (initial_state ui cid uid) h1, step_end, step_end]
  rw [hsup]
  rfl

/-- C10 witness: the contract evaluated in an environment whose supervisor
step escapes with message "kaboom". -/
theorem supervisor_escape_contract_witness :
    process_message [] "Hello" "conv1" "u1" none escape_env =
      ⟨"Supervisor error: kaboom", "error", [], none, "conv1"⟩ :=
  (supervisor_escape_contract [] "Hello" "conv1" "u1" "kaboom" escape_env rfl).2.2

theorem final_status (tools : List String) (env : Env) (ui cid uid : String) :
    (stepN tools env 3 (Node.supervisor, initial_state ui cid uid)).2.workflow_status
        = "completed" ∨
    (stepN tools env 3 (Node.supervisor, initial_state ui cid uid)).2.workflow_status
        = "error" := by
  cases hsup : env.sup with
  | escape m =>
      have h1 : route_supervisor (supervisor_node (initial_state ui cid uid) env.sup) = "end" := by
        rw [hsup]
        rfl
      rw [stepN_three, step_super_end tools env _ h1, step_end, step_end, hsup]
      exact Or.inr rfl
  | fail m =>
      have hst : (supervisor_node (initial_state ui cid uid) env.sup).workflow_status
          = "error" := by
        rw [hsup]
        rfl
      rcases fallback_decision_mem ui with hf | hf
      · have h1 : route_supervisor (supervisor_node (initial_state ui cid uid) env.sup)
            = "research" := by
          rw [hsup]
          simp +decide [route_supervisor, supervisor_node, decide_action, initial_state, hf]
        have h2 : (research_node tools (supervisor_node (initial_state ui cid uid) env.sup)
            env.res).workflow_status = "error" := by
          rcases research_node_status tools (supervisor_node (initial_state ui cid uid) env.sup)
              env.res with h | h
          · rw [h, hst]
          · exact h
        have h3 : route_after_research (research_node tools
            (supervisor_node (initial_state ui cid uid) env.sup) env.res) = "end" := by
          simp [route_after_research, h2]
        rw [stepN_three, step_super_research tools env _ h1, step_research_end tools env _ h3,
          step_end]
        exact Or.inr h2
      · have h1 : route_supervisor (supervisor_node (initial_state ui cid uid) env.sup)
            = "respond" := by
          rw [hsup]
          simp +decide [route_supervisor, supervisor_node, decide_action, initial_state, hf]
        rw [stepN_three, step_super_respond tools env _ h1, step_respond, step_end]
        exact respond_node_status _ env.resp
  | reply r =>
      rcases decide_action_next_mem (initial_state ui cid uid) (Except.ok r) with hna | hna
      · have h1 : route_supervisor (supervisor_node (initial_state ui cid uid) env.sup)
            = "research" := by
          rw [hsup]
          simp +decide [route_supervisor, supervisor_node, hna]
        by_cases h2 : (research_node tools (supervisor_node (initial_state ui cid uid) env.sup)
            env.res).workflow_status = "error"
        · have h3 : route_after_research (research_node tools
              (supervisor_node (initial_state ui cid uid) env.sup) env.res) = "end" := by
            simp [route_after_research, h2]
          rw [stepN_three, step_super_research tools env _ h1, step_research_end tools env _ h3,
            step_end]
          exact Or.inr h2
        · have h3 : route_after_research (research_node tools
              (supervisor_node (initial_state ui cid uid) env.sup) env.res) = "respond" := by
            simp [route_after_research, h2]
          rw [stepN_three, step_super_research tools env _ h1,
            step_research_respond tools env _ h3, step_respond]
          exact respond_node_status _ env.resp
      · have h1 : route_supervisor (supervisor_node (initial_state ui cid uid) env.sup)
            = "respond" := by
          rw [hsup]
          simp +decide [route_supervisor, supervisor_node, hna]
        rw [stepN_three, step_super_respond tools env _ h1, step_respond, step_end]
        exact respond_node_status _ env.resp

/-- C5: process_message is total (the embedding is a total function), its
result record has exactly the five fields of ProcResult, its status is
always "completed" or "error", and when a failure escapes the graph run it
returns the documented workflow-error record. -/
theorem process_message_contract (tools : List String) (ui cid uid : String)
    (gf : Option String) (env : Env) :
    ((process_message tools ui cid uid gf env).status = "completed" ∨
     (process_message tools ui cid uid gf env).status = "error") ∧
    ∀ m, gf = some m →
      process_message tools ui cid uid gf env =
        ⟨"Workflow error: " ++ m, "error", [], none, cid⟩ := by
  constructor
  · cases gf with
    | some m => exact Or.inr rfl
    | none => exact final_status tools env ui cid uid
  · intro m hm
    subst hm
    rfl

/-- C5 witness: an escaping graph failure produces the documented error
record. -/
theorem process_message_contract_witness :
    process_message [] "hi" "c9" "u9" (some "db down") sample_env =
      ⟨"Workflow error: db down", "error", [], none, "c9"⟩ :=
  (process_message_contract [] "hi" "c9" "u9" (some "db down") sample_env).2 "db down" rfl

end FluxAgent
